import Mathlib

/-!
Shallow embedding of the market time-series view controller of
`static/js/markets.js` and the news-card language selection of
`static/js/main.js`, together with theorems settling the spec claims.

JavaScript numbers that the code inspects are modelled as `JNum`:
finite values as rationals, plus symbolic NaN and infinities (the code
only tests finiteness and copies values, so no floating-point
arithmetic is modelled).  Parsed JSON response bodies are modelled as
the inductive `Json`.
-/

deriving instance DecidableEq for Except

/-- a JavaScript number: a finite value, NaN, or an infinity. -/
inductive JNum where
  | num (q : ℚ)
  | nan
  | posInf
  | negInf
deriving DecidableEq

/-- a parsed JSON value, as produced by `res.json()`. -/
inductive Json where
  | obj (fields : List (String × Json))
  | arr (elems : List Json)
  | num (n : JNum)
  | str (s : String)
  | bool (b : Bool)
  | null

/-- JavaScript property access `j[key]` on a parsed JSON value:
`none` models `undefined` (missing key, or any non-object receiver
that has no such own property).  A `null`/`undefined` receiver would
throw in JS; such receivers do not arise in the modelled inputs. -/
def getField : Json → String → Option Json
  | .obj fields, key => (fields.find? (fun kv => kv.fst = key)).map (fun kv => kv.snd)
  | _, _ => none

/-- `Number.isFinite(v)`: true exactly for finite numbers, with no
coercion (strings, objects, undefined, NaN and infinities give false). -/
def isFiniteJson : Json → Bool
  | .num (.num _) => true
  | _ => false

/-- `Number.isFinite(p[k])` for a field of a raw point. -/
def fieldIsFinite (p : Json) (k : String) : Bool :=
  match getField p k with
  | some j => isFiniteJson j
  | none => false

/-- unary `+v` coercion to a number.  In `fetchPoints` it is applied
only to values that already passed `Number.isFinite`, so only the
`.num` case is reachable there; the string case (JS would parse
numeric strings) and object/array cases (toPrimitive) are modelled
coarsely as NaN since the filter makes them unreachable. -/
def unaryPlus : Option Json → JNum
  | some (.num n) => n
  | some (.bool b) => .num (if b then 1 else 0)
  | some .null => .num 0
  | some (.str _) => .nan
  | some (.obj _) => .nan
  | some (.arr _) => .nan
  | none => .nan

/-- a Chart.js time-scale point `{x, y}` as built by `fetchPoints`. -/
structure PlotPoint where
  x : JNum
  y : JNum
deriving DecidableEq

/-- the `.map(p => ({ x: +p.t, y: +p.c }))` step of `fetchPoints`. -/
def toPlotPoint (p : Json) : PlotPoint :=
  { x := unaryPlus (getField p "t"), y := unaryPlus (getField p "c") }

/-- the filter-and-map pipeline of `fetchPoints` (markets.js lines 36-38):
`pts.filter(p => Number.isFinite(p.t) && Number.isFinite(p.c)).map(p => ({x:+p.t, y:+p.c}))`. -/
def rawToPlot (raw : List Json) : List PlotPoint :=
  (raw.filter (fun p => fieldIsFinite p "t" && fieldIsFinite p "c")).map toPlotPoint

/-- a spec-side reformulation of the RawPoint → PlotPoint rule (spec §3):
a raw point yields exactly one plot point `{x := t, y := c}` when both
`t` and `c` are finite numbers, and nothing otherwise.  Stated
independently of the filter-then-map shape of the code so that the two
can be compared. -/
def plotPointSpec (p : Json) : Option PlotPoint :=
  match getField p "t", getField p "c" with
  | some (.num (.num a)), some (.num (.num b)) => some { x := .num a, y := .num b }
  | _, _ => none

/-- `json.points || []`: the list is taken only from a `points` field
holding an array; a missing or falsy `points` gives `[]`.  A truthy
non-array `points` value would make the subsequent `.filter` throw in
JS; such bodies do not arise in the modelled inputs. -/
def pointsOrEmpty (json : Json) : List Json :=
  match getField json "points" with
  | some (.arr l) => l
  | _ => []

/-- `res.ok`: HTTP status in the range 200-299. -/
def resOk (status : Nat) : Bool :=
  decide (200 ≤ status) && decide (status < 300)

/-- outcome of `fetch` plus `res.json()`: the request may reject at the
network layer, or yield a status together with a body that either
parses as JSON or fails to parse. -/
inductive FetchOutcome where
  | netError
  | response (status : Nat) (body : Except Unit Json)

/-- the result of one `fetchPoints()` run (markets.js lines 29-42) for a
given fetch outcome: a rejected fetch propagates the rejection, a
non-ok status throws `HTTP <status>`, an unparsable body propagates the
JSON error, and otherwise the `points` list is filtered and mapped. -/
def fetchPointsResult : FetchOutcome → Except String (List PlotPoint)
  | .netError => .error "TypeError: Failed to fetch"
  | .response status body =>
    if resOk status = false then .error ("HTTP " ++ toString status)
    else
      match body with
      | .error _ => .error "SyntaxError: invalid JSON"
      | .ok json => .ok (rawToPlot (pointsOrEmpty json))

/-- `pickTimeUnit` (markets.js lines 17-22): the x-axis time unit
derived from the range token. -/
def pickTimeUnit (range : String) : String :=
  if range = "1d" ∨ range = "5d" then "hour"
  else if range = "1mo" ∨ range = "6mo" ∨ range = "ytd" ∨ range = "1y" then "day"
  else if range = "5y" then "month"
  else "year"

/-- `pickTooltipFormat` (markets.js lines 23-27): the tooltip date
format derived from the range token. -/
def pickTooltipFormat (range : String) : String :=
  if range = "1d" ∨ range = "5d" then "MMM d, h:mmaaa"
  else if range = "1mo" ∨ range = "6mo" ∨ range = "ytd" ∨ range = "1y" then "MMM d, yyyy"
  else "MMM yyyy"

/-- the range tokens offered by the page, as an indexed enumeration. -/
def rangeEnum : Fin 8 → String
  | 0 => "1d"
  | 1 => "5d"
  | 2 => "1mo"
  | 3 => "6mo"
  | 4 => "ytd"
  | 5 => "1y"
  | 6 => "5y"
  | 7 => "max"

/-!
State machine for the controller.  The chart handle `state.chart` is a
`new Chart(...)` instance; instances are identified by a generation
number `id` so that destroy-and-recreate is observable.  The fixed
style options of the dataset and scales (border width, colors, fill,
tension, `beginAtZero: false`, gradient) are compile-time constants in
the source and are not part of the observable state the claims speak
about, so they are not carried in `ChartInstance`.
-/

/-- an observable chart instance: its generation id, dataset label and
data, and the time-scale configuration derived from the range. -/
structure ChartInstance where
  id : Nat
  label : String
  data : List PlotPoint
  timeUnit : String
  tooltipFormat : String
deriving DecidableEq

/-- the module state of markets.js: the selection (`state.symbol`,
`state.range`, `state.interval`), the chart handle (`state.chart`), the
`inFlight` guard, and the canvas opacity; plus bookkeeping that makes
the claims observable: the id generator, the ids of live and destroyed
instances, the number of network requests currently outstanding, and
the total number of requests issued. -/
structure MState where
  symbol : String
  range : String
  interval : String
  inFlight : Bool
  opacity : ℚ
  chart : Option ChartInstance
  nextId : Nat
  live : List Nat
  destroyed : List Nat
  outstanding : Nat
  requestsIssued : Nat
deriving DecidableEq

/-- the module state at script load: defaults `TSM` / `ytd` / `1d`,
no chart, not busy, full opacity. -/
def initState : MState :=
  { symbol := "TSM", range := "ytd", interval := "1d",
    inFlight := false, opacity := 1, chart := none,
    nextId := 0, live := [], destroyed := [],
    outstanding := 0, requestsIssued := 0 }

/-- `buildChart(pts)` (markets.js lines 44-83 / 154-192): destroy the
existing instance if any (`if (state.chart) state.chart.destroy()`),
then assign a freshly constructed instance whose time-scale unit and
tooltip format are derived from the current range. -/
def buildChart (s : MState) (pts : List PlotPoint) : MState :=
  let s1 : MState :=
    match s.chart with
    | some ch => { s with live := s.live.filter (fun i => i ≠ ch.id),
                          destroyed := ch.id :: s.destroyed }
    | none => s
  let ch : ChartInstance :=
    { id := s1.nextId, label := s1.symbol ++ " price", data := pts,
      timeUnit := pickTimeUnit s1.range, tooltipFormat := pickTooltipFormat s1.range }
  { s1 with chart := some ch, live := ch.id :: s1.live, nextId := s1.nextId + 1 }

/-- the synchronous prefix of `refresh()` (markets.js lines 86-89), up
to the `await fetchPoints()` suspension point: if the guard is set the
call returns at once with no effect; otherwise it sets the guard, dims
the canvas, and issues the network request. -/
def refreshStart (s : MState) : MState :=
  if s.inFlight then s
  else { s with inFlight := true, opacity := 6/10,
                outstanding := s.outstanding + 1,
                requestsIssued := s.requestsIssued + 1 }

/-- the continuation of `refresh()` after the awaited fetch settles
(markets.js lines 90-98): on success `buildChart(pts)` runs; on any
failure the catch block only logs and the state is left as it was; in
both cases the `finally` block restores opacity and clears the guard.
The event is only deliverable while a request is outstanding; the
impossible case stutters. -/
def refreshFinish (s : MState) (o : FetchOutcome) : MState :=
  if s.outstanding = 0 then s
  else
    let s1 : MState := { s with outstanding := s.outstanding - 1 }
    let s2 : MState :=
      match fetchPointsResult o with
      | .ok pts => buildChart s1 pts
      | .error _ => s1
    { s2 with opacity := 1, inFlight := false }

/-- events driving the controller: the `DOMContentLoaded` initial
refresh, a range-button click (which writes the selection and then
calls `refresh()`), a symbol-pill click likewise, and the settling of
the outstanding fetch. -/
inductive Ev where
  | domReady
  | rangeClick (range interval : String)
  | symbolClick (symbol : String)
  | fetchDone (o : FetchOutcome)

/-- one step of the event-driven controller.  A click handler mutates
the selection synchronously and then invokes `refresh()`; all handlers
run to their first suspension point atomically on the single JS
thread. -/
def step (s : MState) : Ev → MState
  | .domReady => refreshStart s
  | .rangeClick r i => refreshStart { s with range := r, interval := i }
  | .symbolClick sym => refreshStart { s with symbol := sym }
  | .fetchDone o => refreshFinish s o

/-- the state after a sequence of events from script load. -/
def run (evs : List Ev) : MState :=
  evs.foldl step initState

/-- the controller invariant: the outstanding-request count matches the
busy flag, every chart id was drawn from the generator, and the live
set is exactly the current chart handle. -/
def ChartInv (s : MState) : Prop :=
  s.outstanding = (if s.inFlight then 1 else 0) ∧
  (∀ ch, s.chart = some ch → ch.id < s.nextId) ∧
  s.live = (match s.chart with | some ch => [ch.id] | none => [])

/-!
News-card language selection from `static/js/main.js`.  A localized
text field (`item.title`, `item.summary`) is a JS object keyed by
lowercase language codes, modelled as an association list; the field
itself may be absent (`none`).
-/

/-- `lang.toLowerCase()`: ASCII case mapping over the characters,
which coincides with the JS behavior on the page's language codes
(`EN`, `FR`). -/
def jsToLower (s : String) : String :=
  ⟨s.data.map Char.toLower⟩

/-- JS property read `o[key]` on a string-valued record: `none` models
`undefined`. -/
def jsIndex (fields : List (String × String)) (key : String) : Option String :=
  (fields.find? (fun kv => kv.fst = key)).map (fun kv => kv.snd)

/-- JS `a || b` on an optional string: the empty string and
`undefined` are falsy. -/
def jsOrStr (a b : Option String) : Option String :=
  match a with
  | some s => if s = "" then b else some s
  | none => b

/-- truthiness of an optional string, as JS `||` sees it. -/
def jsTruthy : Option String → Bool
  | some s => !(s = "")
  | none => false

/-- the title/summary pick of `makeCard` (main.js lines 21-22):
`(item.title && (item.title[lang.toLowerCase()] || item.title.en)) || ""`.
A missing field object gives `""`; otherwise the localized entry is
used if truthy, else the `en` entry if truthy, else `""`. -/
def pickLocalized (field : Option (List (String × String))) (lang : String) : String :=
  match field with
  | none => ""
  | some o =>
    match jsOrStr (jsIndex o (jsToLower lang)) (jsIndex o "en") with
    | some s => if s = "" then "" else s
    | none => ""

/-!
Concrete payloads used by the scenario claims.
-/

/-- a well-formed raw point `{t, c}` with finite fields. -/
def samplePt (t c : ℚ) : Json :=
  .obj [("t", .num (.num t)), ("c", .num (.num c))]

/-- the spec scenario payload
`{points:[{t:1,c:10},{t:"x",c:11},{t:2,c:NaN}]}`. -/
def payloadC3 : Json :=
  .obj [("points", .arr
    [ samplePt 1 10,
      .obj [("t", .str "x"), ("c", .num (.num 11))],
      .obj [("t", .num (.num 2)), ("c", .num .nan)] ])]

/-- a payload whose only point has a non-numeric `t`, so everything is
filtered out. -/
def allInvalidBody : Json :=
  .obj [("points", .arr [ .obj [("t", .str "x"), ("c", .num (.num 1))] ])]

/-- a payload with one valid point under `points`. -/
def goodBody : Json :=
  .obj [("points", .arr [samplePt 1 10])]

/-- a successful (HTTP 200, parsed) response carrying `b`. -/
def okOutcome (b : Json) : FetchOutcome :=
  .response 200 (.ok b)

/-!
Helper lemmas.
-/

/-- a field passes `Number.isFinite` exactly when it holds a finite
number. -/
theorem fieldIsFinite_iff (p : Json) (k : String) :
    fieldIsFinite p k = true ↔ ∃ a : ℚ, getField p k = some (.num (.num a)) := by
  unfold fieldIsFinite
  rcases h : getField p k with _ | j
  · simp
  · simp only [Option.some.injEq]
    cases j with
    | num n => cases n <;> simp [isFiniteJson]
    | obj f => simp [isFiniteJson]
    | arr e => simp [isFiniteJson]
    | str s => simp [isFiniteJson]
    | bool b => simp [isFiniteJson]
    | null => simp [isFiniteJson]

/-- the one-point rule agrees pointwise with the filter-then-map shape
of the code. -/
theorem plotPointSpec_eq (p : Json) :
    plotPointSpec p =
      if fieldIsFinite p "t" && fieldIsFinite p "c" then some (toPlotPoint p) else none := by
  unfold plotPointSpec
  split
  · rename_i a b h1 h2
    simp [fieldIsFinite, toPlotPoint, unaryPlus, isFiniteJson, h1, h2]
  · rename_i hne
    rcases h1 : fieldIsFinite p "t" with _ | _
    · simp
    · rcases h2 : fieldIsFinite p "c" with _ | _
      · simp
      · obtain ⟨a, ha⟩ := (fieldIsFinite_iff p "t").mp h1
        obtain ⟨b, hb⟩ := (fieldIsFinite_iff p "c").mp h2
        exact (hne a b ha hb).elim

/-- the pipeline of `fetchPoints` is the order-preserving `filterMap`
of the one-point rule. -/
theorem rawToPlot_filterMap (raw : List Json) :
    rawToPlot raw = raw.filterMap plotPointSpec := by
  induction raw with
  | nil => rfl
  | cons p rest ih =>
    simp only [rawToPlot] at ih ⊢
    rw [List.filter_cons, List.filterMap_cons, plotPointSpec_eq]
    by_cases hp : (fieldIsFinite p "t" && fieldIsFinite p "c") = true
    · simp only [hp, if_true, List.map_cons, ih]
    · simp only [Bool.not_eq_true] at hp
      simp only [hp, Bool.false_eq_true, if_false, ih]

/-- C3: the RawPoint-to-PlotPoint mapping in `fetchPoints` keeps exactly
the entries whose `t` and `c` are both finite numbers (dropping, never
defaulting, all others), maps each kept `{t, c}` to `{x := t, y := c}`,
preserves the input order (it is the `filterMap` of the one-point rule),
produces an output no longer than the input, and on the payload
`{points:[{t:1,c:10},{t:"x",c:11},{t:2,c:NaN}]}` yields exactly
`[{x:1,y:10}]`. -/
theorem C3_raw_point_mapping :
    (∀ raw : List Json, rawToPlot raw = raw.filterMap plotPointSpec) ∧
    (∀ raw : List Json, (rawToPlot raw).length ≤ raw.length) ∧
    fetchPointsResult (okOutcome payloadC3) = .ok [{ x := .num 1, y := .num 10 }] := by
  refine ⟨rawToPlot_filterMap, fun raw => ?_, by decide⟩
  simp only [rawToPlot, List.length_map]
  exact List.length_filter_le _ raw

/-- C5: `pickTimeUnit` returns `hour` for `1d` and `5d`, `day` for
`1mo`, `6mo`, `ytd` and `1y`, `month` for `5y`, and `year` for any
other token. -/
theorem C5_pickTimeUnit_values :
    pickTimeUnit "1d" = "hour" ∧ pickTimeUnit "5d" = "hour" ∧
    pickTimeUnit "1mo" = "day" ∧ pickTimeUnit "6mo" = "day" ∧
    pickTimeUnit "ytd" = "day" ∧ pickTimeUnit "1y" = "day" ∧
    pickTimeUnit "5y" = "month" ∧
    (∀ r : String, r ≠ "1d" → r ≠ "5d" → r ≠ "1mo" → r ≠ "6mo" → r ≠ "ytd" →
      r ≠ "1y" → r ≠ "5y" → pickTimeUnit r = "year") := by
  refine ⟨by decide, by decide, by decide, by decide, by decide, by decide, by decide, ?_⟩
  intro r h1 h2 h3 h4 h5 h6 h7
  simp [pickTimeUnit, h1, h2, h3, h4, h5, h6, h7]

/-- C5 witness: the unrecognized token `max` falls in the `year`
bucket. -/
theorem C5_pickTimeUnit_values_witness : pickTimeUnit "max" = "year" :=
  C5_pickTimeUnit_values.2.2.2.2.2.2.2 "max" (by decide) (by decide) (by decide)
    (by decide) (by decide) (by decide) (by decide)

/-- C6 counterexample: `5y` and `max` agree on tooltip format but not
on time unit, so the two functions do not partition the range enum
identically. -/
theorem C6_counterexample_5y_max :
    ¬ (pickTimeUnit "5y" = pickTimeUnit "max" ↔
       pickTooltipFormat "5y" = pickTooltipFormat "max") := by
  decide

/-- C6 amended: on the range enum the time-unit partition refines the
tooltip-format partition — agreement on time unit implies agreement on
tooltip format — but the converse fails: `5y` and `max` share the
format `MMM yyyy` while their units are `month` and `year`. -/
theorem C6_partition_refinement :
    (∀ i j : Fin 8, pickTimeUnit (rangeEnum i) = pickTimeUnit (rangeEnum j) →
        pickTooltipFormat (rangeEnum i) = pickTooltipFormat (rangeEnum j)) ∧
    pickTooltipFormat "5y" = "MMM yyyy" ∧ pickTooltipFormat "max" = "MMM yyyy" ∧
    pickTimeUnit "5y" = "month" ∧ pickTimeUnit "max" = "year" :=
  ⟨by decide, by decide, by decide, by decide, by decide⟩

/-- C6 witness: `1d` and `5d` share the unit `hour`, hence also the
tooltip format. -/
theorem C6_partition_refinement_witness :
    pickTooltipFormat (rangeEnum 0) = pickTooltipFormat (rangeEnum 1) :=
  C6_partition_refinement.1 0 1 (by decide)

/-- C4 counterexample: a bare top-level array and a `candles` payload
both yield the empty point list, while the same point under `points`
yields it, so the historical shapes do not agree. -/
theorem C4_counterexample_bare_array :
    fetchPointsResult (.response 200 (.ok (.arr [samplePt 1 10]))) = .ok [] ∧
    fetchPointsResult (okOutcome (.obj [("candles", .arr [samplePt 1 10])])) = .ok [] ∧
    fetchPointsResult (okOutcome goodBody) = .ok [{ x := .num 1, y := .num 10 }] ∧
    (Except.ok [] : Except String (List PlotPoint)) ≠
      .ok [{ x := .num 1, y := .num 10 }] := by
  decide

/-- C4 amended: for a 2xx parsed body, `fetchPoints` reads the list only
from a `points` field holding an array; a bare top-level array and a
`candles` field both yield the empty list rather than the payload's
points. -/
theorem C4_points_field_only :
    ∀ (l : List Json) (status : Nat), resOk status = true →
      fetchPointsResult (.response status (.ok (.arr l))) = .ok [] ∧
      fetchPointsResult (.response status (.ok (.obj [("candles", .arr l)]))) = .ok [] ∧
      fetchPointsResult (.response status (.ok (.obj [("points", .arr l)]))) =
        .ok (rawToPlot l) := by
  intro l status h
  refine ⟨?_, ?_, ?_⟩ <;>
    simp [fetchPointsResult, h, pointsOrEmpty, getField, rawToPlot]

/-- C4 witness: the amended statement at status 200 with one valid
point. -/
theorem C4_points_field_only_witness :
    fetchPointsResult (.response 200 (.ok (.arr [samplePt 1 10]))) = .ok [] ∧
    fetchPointsResult (.response 200 (.ok (.obj [("candles", .arr [samplePt 1 10])]))) = .ok [] ∧
    fetchPointsResult (.response 200 (.ok (.obj [("points", .arr [samplePt 1 10])]))) =
      .ok (rawToPlot [samplePt 1 10]) :=
  C4_points_field_only [samplePt 1 10] 200 (by decide)

theorem buildChart_fields (s : MState) (pts : List PlotPoint) :
    (buildChart s pts).chart =
      some { id := s.nextId, label := s.symbol ++ " price", data := pts,
             timeUnit := pickTimeUnit s.range, tooltipFormat := pickTooltipFormat s.range } ∧
    (buildChart s pts).nextId = s.nextId + 1 ∧
    (buildChart s pts).outstanding = s.outstanding ∧
    (buildChart s pts).inFlight = s.inFlight ∧
    (buildChart s pts).live =
      s.nextId :: (match s.chart with
                   | some ch => s.live.filter (fun i => i ≠ ch.id)
                   | none => s.live) ∧
    (buildChart s pts).destroyed =
      (match s.chart with | some ch => ch.id :: s.destroyed | none => s.destroyed) := by
  unfold buildChart
  rcases hc : s.chart with _ | ch <;> simp

theorem chartInv_initState : ChartInv initState := by
  refine ⟨rfl, ?_, rfl⟩
  intro ch h
  simp [initState] at h

theorem chartInv_buildChart (s : MState) (pts : List PlotPoint) (h : ChartInv s) :
    ChartInv (buildChart s pts) := by
  obtain ⟨h1, h2, h3⟩ := h
  obtain ⟨f1, f2, f3, f4, f5, f6⟩ := buildChart_fields s pts
  refine ⟨by rw [f3, f4]; exact h1, ?_, ?_⟩
  · intro ch hch
    rw [f1] at hch
    rw [f2]
    cases hch
    simp
  · rw [f1, f5]
    rcases hc : s.chart with _ | ch
    · rw [hc] at h3; simp [h3]
    · rw [hc] at h3
      simp [h3]

theorem chartInv_refreshStart (s : MState) (h : ChartInv s) : ChartInv (refreshStart s) := by
  obtain ⟨h1, h2, h3⟩ := h
  unfold refreshStart
  split
  · exact ⟨h1, h2, h3⟩
  · rename_i hf
    simp only [Bool.not_eq_true] at hf
    rw [hf] at h1
    simp at h1
    refine ⟨?_, ?_, ?_⟩
    · simp [h1]
    · intro ch hch
      exact h2 ch hch
    · exact h3

theorem refreshFinish_ok (s : MState) (o : FetchOutcome) (pts : List PlotPoint)
    (hout : s.outstanding ≠ 0) (hr : fetchPointsResult o = .ok pts) :
    (refreshFinish s o).chart =
      some { id := s.nextId, label := s.symbol ++ " price", data := pts,
             timeUnit := pickTimeUnit s.range, tooltipFormat := pickTooltipFormat s.range } ∧
    (∀ old, s.chart = some old → old.id ∈ (refreshFinish s o).destroyed) ∧
    (refreshFinish s o).inFlight = false ∧
    (refreshFinish s o).opacity = 1 := by
  unfold refreshFinish
  rw [if_neg hout]
  simp only [hr]
  obtain ⟨f1, f2, f3, f4, f5, f6⟩ :=
    buildChart_fields { s with outstanding := s.outstanding - 1 } pts
  refine ⟨by simpa using f1, ?_, by simp, by simp⟩
  intro old hold
  have hd : ({buildChart {s with outstanding := s.outstanding - 1} pts with
      opacity := 1, inFlight := false} : MState).destroyed =
      (buildChart {s with outstanding := s.outstanding - 1} pts).destroyed := rfl
  rw [hd, f6]
  have hc : ({s with outstanding := s.outstanding - 1} : MState).chart = s.chart := rfl
  rw [hc, hold]
  simp

theorem refreshFinish_error (s : MState) (o : FetchOutcome) (msg : String)
    (hout : s.outstanding ≠ 0) (hr : fetchPointsResult o = .error msg) :
    (refreshFinish s o).chart = s.chart ∧
    (refreshFinish s o).destroyed = s.destroyed ∧
    (refreshFinish s o).live = s.live ∧
    (refreshFinish s o).nextId = s.nextId ∧
    (refreshFinish s o).inFlight = false ∧
    (refreshFinish s o).opacity = 1 ∧
    (refreshFinish s o).outstanding = s.outstanding - 1 := by
  unfold refreshFinish
  rw [if_neg hout]
  simp [hr]

theorem chartInv_refreshFinish (s : MState) (o : FetchOutcome) (h : ChartInv s) :
    ChartInv (refreshFinish s o) := by
  by_cases hout : s.outstanding = 0
  · unfold refreshFinish
    rw [if_pos hout]
    exact h
  · obtain ⟨h1, h2, h3⟩ := h
    have hf : s.inFlight = true := by
      by_contra hb
      simp only [Bool.not_eq_true] at hb
      rw [hb] at h1
      simp at h1
      exact hout h1
    rw [hf] at h1
    simp at h1
    rcases hrc : fetchPointsResult o with msg | pts
    · obtain ⟨e1, e2, e3, e4, e5, e6, e7⟩ := refreshFinish_error s o msg hout hrc
      refine ⟨?_, ?_, ?_⟩
      · rw [e7, e5, h1]
        simp
      · intro ch hch
        rw [e1] at hch
        rw [e4]
        exact h2 ch hch
      · rw [e3, e1]
        exact h3
    · unfold refreshFinish
      rw [if_neg hout]
      simp only [hrc]
      obtain ⟨f1, f2, f3, f4, f5, f6⟩ :=
        buildChart_fields { s with outstanding := s.outstanding - 1 } pts
      refine ⟨?_, ?_, ?_⟩
      · simp only [f3]
        simp [h1]
      · intro ch hch
        simp only [f1, Option.some.injEq] at hch
        subst hch
        simp [f2]
      · simp only [f1, f5]
        rcases hsc : s.chart with _ | ch
        · rw [hsc] at h3
          simp only [hsc] at *
          simp [h3]
        · rw [hsc] at h3
          simp only [hsc] at *
          simp [h3]

theorem chartInv_selection (s : MState) (h : ChartInv s) (r i sym : String) :
    ChartInv { s with range := r, interval := i } ∧
    ChartInv { s with symbol := sym } := by
  obtain ⟨h1, h2, h3⟩ := h
  exact ⟨⟨h1, fun ch hch => h2 ch hch, h3⟩, ⟨h1, fun ch hch => h2 ch hch, h3⟩⟩

theorem chartInv_step (s : MState) (e : Ev) (h : ChartInv s) : ChartInv (step s e) := by
  cases e with
  | domReady => exact chartInv_refreshStart s h
  | rangeClick r i => exact chartInv_refreshStart _ ((chartInv_selection s h r i "").1)
  | symbolClick sym => exact chartInv_refreshStart _ ((chartInv_selection s h "" "" sym).2)
  | fetchDone o => exact chartInv_refreshFinish s o h

theorem chartInv_run (evs : List Ev) : ChartInv (run evs) := by
  suffices h : ∀ (l : List Ev) (s : MState), ChartInv s → ChartInv (l.foldl step s) by
    exact h evs initState chartInv_initState
  intro l
  induction l with
  | nil => exact fun s hs => hs
  | cons e rest ih => exact fun s hs => ih _ (chartInv_step s e hs)

/-- C1: invoking `refresh()` while a fetch is in flight is a no-op — the
state (selection, chart handle, busy flag, canvas opacity, request
counters) is returned unchanged and no second request is issued — and
along every event sequence at most one fetch is outstanding. -/
theorem C1_busy_refresh_noop :
    (∀ s : MState, s.inFlight = true → refreshStart s = s) ∧
    (∀ evs : List Ev, (run evs).outstanding ≤ 1) := by
  constructor
  · intro s h
    simp [refreshStart, h]
  · intro evs
    obtain ⟨h1, -, -⟩ := chartInv_run evs
    rw [h1]
    split <;> simp

/-- C1 witness: immediately re-invoking `refresh()` after the initial
one (still in flight) changes nothing, and a trace with a click during
the initial fetch keeps at most one request outstanding. -/
theorem C1_busy_refresh_noop_witness :
    refreshStart (refreshStart initState) = refreshStart initState ∧
    (run [.domReady, .rangeClick "1d" "5m"]).outstanding ≤ 1 :=
  ⟨C1_busy_refresh_noop.1 (refreshStart initState) (by decide),
   C1_busy_refresh_noop.2 [.domReady, .rangeClick "1d" "5m"]⟩

/-- C2: when the awaited fetch settles with a failure (rejected fetch,
non-2xx status, or JSON-parse error), the chart handle and the
destroyed-instance log are untouched; and on every completion, success
or failure, the busy flag is cleared and the canvas opacity restored
to 1. -/
theorem C2_failure_handling :
    ∀ (s : MState) (o : FetchOutcome), s.outstanding ≠ 0 →
      ((∃ msg, fetchPointsResult o = .error msg) →
        (refreshFinish s o).chart = s.chart ∧
        (refreshFinish s o).destroyed = s.destroyed) ∧
      (refreshFinish s o).inFlight = false ∧
      (refreshFinish s o).opacity = 1 := by
  intro s o hout
  rcases hrc : fetchPointsResult o with msg | pts
  · obtain ⟨e1, e2, e3, e4, e5, e6, e7⟩ := refreshFinish_error s o msg hout hrc
    exact ⟨fun _ => ⟨e1, e2⟩, e5, e6⟩
  · obtain ⟨g1, g2, g3, g4⟩ := refreshFinish_ok s o pts hout hrc
    refine ⟨?_, g3, g4⟩
    rintro ⟨msg, hmsg⟩
    exact absurd hmsg (by simp)

/-- C2 witness: after the initial refresh, a network-rejected fetch
leaves the chart handle unchanged, clears the busy flag and restores
opacity. -/
theorem C2_failure_handling_witness :
    (refreshFinish (refreshStart initState) .netError).chart =
      (refreshStart initState).chart ∧
    (refreshFinish (refreshStart initState) .netError).inFlight = false ∧
    (refreshFinish (refreshStart initState) .netError).opacity = 1 := by
  have h := C2_failure_handling (refreshStart initState) .netError (by decide)
  exact ⟨(h.1 ⟨"TypeError: Failed to fetch", rfl⟩).1, h.2.1, h.2.2⟩

/-- C7 counterexample: a payload whose only point is malformed filters
to the empty list, yet the refresh is handled as a normal success — the
previously built chart (id 0) is destroyed and replaced by a chart with
an empty dataset, with no escalation. -/
theorem C7_counterexample_all_invalid :
    fetchPointsResult (okOutcome allInvalidBody) = .ok [] ∧
    (run [.domReady, .fetchDone (okOutcome goodBody), .domReady,
          .fetchDone (okOutcome allInvalidBody)]).chart =
      some { id := 1, label := "TSM price", data := [],
             timeUnit := "day", tooltipFormat := "MMM d, yyyy" } ∧
    (run [.domReady, .fetchDone (okOutcome goodBody), .domReady,
          .fetchDone (okOutcome allInvalidBody)]).destroyed = [0] := by
  decide

/-- C7 amended: malformed or non-numeric point entries are filtered
silently and never escalated, even when the entire result set becomes
empty: a fetch whose filtered result is `[]` is treated as a normal
success, destroying any existing chart and rebuilding one with an
empty dataset. -/
theorem C7_empty_result_rebuilds :
    ∀ (s : MState) (o : FetchOutcome), s.outstanding ≠ 0 → fetchPointsResult o = .ok [] →
      (refreshFinish s o).chart =
        some { id := s.nextId, label := s.symbol ++ " price", data := [],
               timeUnit := pickTimeUnit s.range, tooltipFormat := pickTooltipFormat s.range } ∧
      (∀ old, s.chart = some old → old.id ∈ (refreshFinish s o).destroyed) := by
  intro s o hout hr
  obtain ⟨g1, g2, g3, g4⟩ := refreshFinish_ok s o [] hout hr
  exact ⟨g1, g2⟩

/-- C7 witness: the amended statement on the all-invalid payload after
an accepted refresh on the state produced by a first successful run. -/
theorem C7_empty_result_rebuilds_witness :
    (refreshFinish (refreshStart (run [.domReady, .fetchDone (okOutcome goodBody)]))
        (okOutcome allInvalidBody)).chart =
      some { id := 1, label := "TSM price", data := [],
             timeUnit := "day", tooltipFormat := "MMM d, yyyy" } ∧
    0 ∈ (refreshFinish (refreshStart (run [.domReady, .fetchDone (okOutcome goodBody)]))
        (okOutcome allInvalidBody)).destroyed := by
  have h := C7_empty_result_rebuilds
    (refreshStart (run [.domReady, .fetchDone (okOutcome goodBody)]))
    (okOutcome allInvalidBody) (by decide) (by decide)
  refine ⟨?_, ?_⟩
  · rw [h.1]
    decide
  · have := h.2 { id := 0, label := "TSM price", data := [{ x := .num 1, y := .num 10 }],
                  timeUnit := "day", tooltipFormat := "MMM d, yyyy" } (by decide)
    simpa using this

/-- C8 counterexample: two consecutive successful refreshes with an
unchanged selection and identical data — so the axis unit and tooltip
format are unchanged — still destroy instance 0 and create instance 1;
there is no in-place dataset update. -/
theorem C8_counterexample_same_config :
    (run [.domReady, .fetchDone (okOutcome goodBody)]).chart =
      some { id := 0, label := "TSM price", data := [{ x := .num 1, y := .num 10 }],
             timeUnit := "day", tooltipFormat := "MMM d, yyyy" } ∧
    (run [.domReady, .fetchDone (okOutcome goodBody), .domReady,
          .fetchDone (okOutcome goodBody)]).chart =
      some { id := 1, label := "TSM price", data := [{ x := .num 1, y := .num 10 }],
             timeUnit := "day", tooltipFormat := "MMM d, yyyy" } ∧
    (run [.domReady, .fetchDone (okOutcome goodBody), .domReady,
          .fetchDone (okOutcome goodBody)]).destroyed = [0] := by
  decide

/-- C8 amended: at most one chart instance is ever live, and every
`buildChart` call unconditionally destroys the existing instance and
constructs a fresh one (its id is the next generation, strictly above
every reachable chart id), even when the axis unit and tooltip format
did not change. -/
theorem C8_always_recreates :
    (∀ evs : List Ev, (run evs).live.length ≤ 1) ∧
    (∀ (s : MState) (pts : List PlotPoint),
        (buildChart s pts).chart =
          some { id := s.nextId, label := s.symbol ++ " price", data := pts,
                 timeUnit := pickTimeUnit s.range,
                 tooltipFormat := pickTooltipFormat s.range } ∧
        (∀ ch, s.chart = some ch → ch.id ∈ (buildChart s pts).destroyed)) ∧
    (∀ (evs : List Ev) (ch : ChartInstance),
        (run evs).chart = some ch → ch.id < (run evs).nextId) := by
  refine ⟨?_, ?_, ?_⟩
  · intro evs
    obtain ⟨-, -, h3⟩ := chartInv_run evs
    rw [h3]
    rcases (run evs).chart with _ | ch <;> simp
  · intro s pts
    obtain ⟨f1, f2, f3, f4, f5, f6⟩ := buildChart_fields s pts
    refine ⟨f1, ?_⟩
    intro ch hch
    rw [f6, hch]
    simp
  · intro evs ch hch
    obtain ⟨-, h2, -⟩ := chartInv_run evs
    exact h2 ch hch

/-- C8 witness: the amended statement evaluated after one successful
refresh: the live set is a singleton, rebuilding destroys instance 0,
and the reachable chart id 0 is below the generator. -/
theorem C8_always_recreates_witness :
    (run [.domReady, .fetchDone (okOutcome goodBody)]).live.length ≤ 1 ∧
    0 ∈ (buildChart (run [.domReady, .fetchDone (okOutcome goodBody)]) []).destroyed ∧
    (0 : Nat) < (run [.domReady, .fetchDone (okOutcome goodBody)]).nextId := by
  refine ⟨C8_always_recreates.1 [.domReady, .fetchDone (okOutcome goodBody)], ?_, ?_⟩
  · have h := (C8_always_recreates.2.1 (run [.domReady, .fetchDone (okOutcome goodBody)]) []).2
      { id := 0, label := "TSM price", data := [{ x := .num 1, y := .num 10 }],
        timeUnit := "day", tooltipFormat := "MMM d, yyyy" } (by decide)
    simpa using h
  · have h := C8_always_recreates.2.2 [.domReady, .fetchDone (okOutcome goodBody)]
      { id := 0, label := "TSM price", data := [{ x := .num 1, y := .num 10 }],
        timeUnit := "day", tooltipFormat := "MMM d, yyyy" } (by decide)
    simpa using h

/-- C10: a 2xx body with no `points` field — a bare top-level array, a
`candles` object, or an empty object — yields the empty point list
without raising, and the refresh completes as a success: any existing
chart is destroyed and replaced by one with an empty dataset, with the
busy flag cleared. -/
theorem C10_missing_points_success :
    ∀ (body : Json) (status : Nat) (s : MState),
      resOk status = true → getField body "points" = none → s.outstanding ≠ 0 →
      fetchPointsResult (.response status (.ok body)) = .ok [] ∧
      (refreshFinish s (.response status (.ok body))).chart =
        some { id := s.nextId, label := s.symbol ++ " price", data := [],
               timeUnit := pickTimeUnit s.range,
               tooltipFormat := pickTooltipFormat s.range } ∧
      (∀ old, s.chart = some old →
        old.id ∈ (refreshFinish s (.response status (.ok body))).destroyed) ∧
      (refreshFinish s (.response status (.ok body))).inFlight = false := by
  intro body status s hok hnone hout
  have hres : fetchPointsResult (.response status (.ok body)) = .ok [] := by
    simp [fetchPointsResult, hok, pointsOrEmpty, hnone, rawToPlot]
  obtain ⟨g1, g2, g3, g4⟩ := refreshFinish_ok s (.response status (.ok body)) [] hout hres
  exact ⟨hres, g1, g2, g3⟩

/-- C10 witness: the statement on a bare-array body after the initial
accepted refresh from a state holding chart 0. -/
theorem C10_missing_points_success_witness :
    fetchPointsResult (.response 200 (.ok (.arr [samplePt 1 10]))) = .ok [] ∧
    (refreshFinish (refreshStart (run [.domReady, .fetchDone (okOutcome goodBody)]))
        (.response 200 (.ok (.arr [samplePt 1 10])))).chart =
      some { id := 1, label := "TSM price", data := [],
             timeUnit := "day", tooltipFormat := "MMM d, yyyy" } ∧
    0 ∈ (refreshFinish (refreshStart (run [.domReady, .fetchDone (okOutcome goodBody)]))
        (.response 200 (.ok (.arr [samplePt 1 10])))).destroyed ∧
    (refreshFinish (refreshStart (run [.domReady, .fetchDone (okOutcome goodBody)]))
        (.response 200 (.ok (.arr [samplePt 1 10])))).inFlight = false := by
  have h := C10_missing_points_success (.arr [samplePt 1 10]) 200
    (refreshStart (run [.domReady, .fetchDone (okOutcome goodBody)]))
    (by decide) rfl (by decide)
  refine ⟨h.1, ?_, ?_, h.2.2.2⟩
  · rw [h.2.1]
    decide
  · have := h.2.2.1 { id := 0, label := "TSM price", data := [{ x := .num 1, y := .num 10 }],
                      timeUnit := "day", tooltipFormat := "MMM d, yyyy" } (by decide)
    simpa using this

/-- C9 counterexample: with active language EN and a title object
holding only a French text, the pick yields `""` — French is never a
fallback; and with active language FR and both texts present, the
French text is picked first — English is not tried first.  Both refute
the chain EN, then localized, then FR. -/
theorem C9_counterexample_no_fr_fallback :
    pickLocalized (some [("fr", "Bonjour")]) "EN" = "" ∧
    pickLocalized (some [("en", "Hello"), ("fr", "Bonjour")]) "FR" = "Bonjour" := by
  decide

/-- C9 amended: the pick applies the chain localized-then-EN-then-empty:
a truthy entry for the active language wins; otherwise a truthy `en`
entry; otherwise `""`.  The `fr` entry is never consulted when the
active language is not French, and a missing field object yields `""`. -/
theorem C9_localized_then_en :
    (∀ (o : List (String × String)) (lang s : String),
        jsIndex o (jsToLower lang) = some s → s ≠ "" →
        pickLocalized (some o) lang = s) ∧
    (∀ (o : List (String × String)) (lang e : String),
        jsTruthy (jsIndex o (jsToLower lang)) = false → jsIndex o "en" = some e → e ≠ "" →
        pickLocalized (some o) lang = e) ∧
    (∀ (o₁ o₂ : List (String × String)) (lang : String),
        jsToLower lang ≠ "fr" →
        (∀ k, k ≠ "fr" → jsIndex o₁ k = jsIndex o₂ k) →
        pickLocalized (some o₁) lang = pickLocalized (some o₂) lang) ∧
    (∀ lang : String, pickLocalized none lang = "") := by
  refine ⟨?_, ?_, ?_, fun lang => rfl⟩
  · intro o lang s hs hne
    simp [pickLocalized, jsOrStr, hs, hne]
  · intro o lang e ht he hne
    rcases hl : jsIndex o (jsToLower lang) with _ | s
    · simp [pickLocalized, jsOrStr, hl, he, hne]
    · rw [hl] at ht
      simp [jsTruthy] at ht
      simp [pickLocalized, jsOrStr, hl, ht, he, hne]
  · intro o₁ o₂ lang hlang h
    have h1 := h (jsToLower lang) hlang
    have h2 := h "en" (by decide)
    simp only [pickLocalized, h1, h2]

/-- C9 witness: localized-first with FR active, EN fallback when the
localized entry is missing, and independence from the `fr` entry when
EN is active. -/
theorem C9_localized_then_en_witness :
    pickLocalized (some [("en", "Hello"), ("fr", "Bonjour")]) "FR" = "Bonjour" ∧
    pickLocalized (some [("en", "Hello")]) "FR" = "Hello" ∧
    pickLocalized (some [("en", "Hello"), ("fr", "Bonjour")]) "EN" =
      pickLocalized (some [("en", "Hello"), ("fr", "Autre")]) "EN" ∧
    pickLocalized none "EN" = "" := by
  refine ⟨C9_localized_then_en.1 _ "FR" "Bonjour" (by decide) (by decide),
          C9_localized_then_en.2.1 _ "FR" "Hello" (by decide) (by decide) (by decide),
          C9_localized_then_en.2.2.1 _ _ "EN" (by decide) ?_,
          C9_localized_then_en.2.2.2 "EN"⟩
  intro k hk
  by_cases he : ("en" : String) = k
  · simp [jsIndex, List.find?, he]
  · have hf : ¬(("fr" : String) = k) := fun hcontra => hk hcontra.symm
    simp [jsIndex, List.find?, he, hf]
